import Mathlib

/-!
Shallow embedding of the swissweather integration
(`custom_components/swissweather/meteo.py`, `coordinator.py`) and proofs of
the specified properties.

Modelling conventions:
* Instants and durations are integers measured in epoch milliseconds.  The
  source works with `datetime` values obtained as `fromtimestamp(epoch/1000)`,
  which on the millisecond scale is the identity, so `timedelta(minutes=10)`
  is 600000, `timedelta(hours=1)` is 3600000 and `timedelta(hours=3)` is
  10800000.
* JSON numbers are rationals (`ℚ`), JSON integers are `ℤ`.  A missing or
  unparseable field is `none`.
* Python `float(...)` on a string is modelled by `floatOfString`, a
  locale-invariant decimal parser (sign, digits, optional fraction, optional
  exponent); special forms such as `inf`, `nan` or underscore separators are
  outside the model.
* A raised Python exception is modelled by `Except.error ()`; a function that
  returns `None` in Python returns `none` here.
* `datetime.strptime` for the station feed's `Date` column and the daily
  `dayDate` field is treated as already carried out: those fields hold the
  parsed instant (`none` when the key is absent).
-/

/-- `FloatValue = (float | None, str)` from the source: a tagged value.  The
second component is `Option String` because the coordinator's fallback path
builds the tuple `(None, None)` whose unit is `None`. -/
abbrev FloatValue := Option ℚ × Option String

/-- The fixed `CONDITION_CLASSES` table from `meteo.py`, in source order. -/
def CONDITION_CLASSES : List (String × List Int) :=
  [("clear-night", [101]),
   ("cloudy", [5, 35, 105, 135]),
   ("fog", [27, 28, 127, 128]),
   ("hail", []),
   ("lightning", [12, 112]),
   ("lightning-rainy", [13, 23, 24, 25, 32, 113, 123, 124, 125, 132]),
   ("partlycloudy", [2, 3, 4, 102, 103, 104]),
   ("pouring", [20, 120]),
   ("rainy", [6, 9, 14, 17, 29, 33, 106, 109, 114, 117, 129, 133]),
   ("snowy", [8, 11, 16, 19, 22, 30, 34, 108, 111, 116, 119, 122, 130, 134]),
   ("snowy-rainy", [7, 10, 15, 18, 21, 31, 107, 110, 115, 118, 121, 131]),
   ("sunny", [1, 26, 126]),
   ("windy", []),
   ("windy-variant", []),
   ("exceptional", [])]

/-- `ICON_TO_CONDITION_MAP = {i: k for k, v in CONDITION_CLASSES.items() for i in v}`:
the icon-code-to-category association list (no icon code occurs twice in the
table, so first-match lookup agrees with the Python dict). -/
def ICON_TO_CONDITION_MAP : List (Int × String) :=
  CONDITION_CLASSES.foldl (fun m kv => m ++ kv.2.map (fun i => (i, kv.1))) []

/-- `ICON_TO_CONDITION_MAP.get(code)`: lookup of an icon code, `none` when the
code is not in the table. -/
def icon_condition (code : Int) : Option String :=
  ICON_TO_CONDITION_MAP.lookup code

/-- `ICON_TO_CONDITION_MAP.get(icon, None)` where `icon` may itself be `None`
(a `None` key is never present in the dict, so it yields `None`). -/
def condition_of_icon (icon : Option Int) : Option String :=
  match icon with
  | none => none
  | some i => icon_condition i

/-- The condition categories actually produced by the table (its keys). -/
def conditionCategories : List String := CONDITION_CLASSES.map Prod.fst

/-- The condition-category names as the specification spells them (it writes
the partly-cloudy category with a hyphen). -/
def claimedConditionCategories : List String :=
  ["clear-night", "cloudy", "fog", "hail", "lightning", "lightning-rainy",
   "partly-cloudy", "pouring", "rainy", "snowy", "snowy-rainy", "sunny",
   "windy", "windy-variant", "exceptional"]

/-- Value of a digit string, most significant first. -/
def digitsVal (cs : List Char) : ℕ :=
  cs.foldl (fun a c => a * 10 + (c.toNat - 48)) 0

/-- A nonempty string of decimal digits. -/
def isDigits (cs : List Char) : Bool :=
  !cs.isEmpty && cs.all (fun c => c.isDigit)

/-- Split a character list at every occurrence of `sep` (the analogue of
`str.split(sep)`); always returns at least one piece. -/
def splitOnChar (sep : Char) : List Char → List (List Char)
  | [] => [[]]
  | c :: rest =>
      if c = sep then [] :: splitOnChar sep rest
      else
        match splitOnChar sep rest with
        | [] => [[c]]
        | h :: t => (c :: h) :: t

/-- Unsigned decimal mantissa: `"12"`, `"12.5"`, `"12."`, `".5"`. -/
def parseUnsignedDecimal (cs : List Char) : Option ℚ :=
  match splitOnChar '.' cs with
  | [ip] => if isDigits ip then some (digitsVal ip : ℚ) else none
  | [ip, fp] =>
      if (ip.all Char.isDigit) && (fp.all Char.isDigit) && !(ip.isEmpty && fp.isEmpty)
      then some ((digitsVal ip : ℚ) + (digitsVal fp : ℚ) / ((10 : ℚ) ^ fp.length))
      else none
  | _ => none

/-- Optional leading sign around a parser. -/
def parseSign {α} (neg : α → α) (p : List Char → Option α) (cs : List Char) : Option α :=
  match cs with
  | '+' :: rest => p rest
  | '-' :: rest => (p rest).map neg
  | _ => p cs

/-- Unsigned integer (used for the exponent part). -/
def parseUnsignedInt (cs : List Char) : Option ℤ :=
  if isDigits cs then some (digitsVal cs : ℤ) else none

/-- Model of Python's built-in `float(string)` on finite decimal literals:
optional sign, decimal mantissa, optional `e`/`E` exponent.  Returns `none`
exactly where `float` raises `ValueError` (within the modelled fragment). -/
def floatOfString (s : String) : Option ℚ :=
  let t := s.toList.map (fun c => if c = 'E' then 'e' else c)
  match splitOnChar 'e' t with
  | [m] => parseSign Neg.neg parseUnsignedDecimal m
  | [m, e] => do
      let v ← parseSign Neg.neg parseUnsignedDecimal m
      let ex ← parseSign Neg.neg parseUnsignedInt e
      pure (v * (10 : ℚ) ^ ex)
  | _ => none

/-- `to_float` from `meteo.py`: `None` input yields `None`; a parse failure is
caught and yields `None`; otherwise the parsed number is returned.  The
function is total: it never propagates an error. -/
def to_float (string : Option String) : Option ℚ :=
  match string with
  | none => none
  | some s => floatOfString s

/-- One row of the current-conditions CSV feed.  Field names are the fixed
column codes used by `_get_current_data_for_row`.  The `Date` column is kept
as its already-parsed instant (see module conventions). -/
structure CsvRow where
  stationLocation : String
  date : Option ℤ
  tre200s0 : Option String
  rre150z0 : Option String
  sre000z0 : Option String
  gre000z0 : Option String
  ure200s0 : Option String
  tde200s0 : Option String
  dkl010z0 : Option String
  fu3010z0 : Option String
  fu3010z1 : Option String
  prestas0 : Option String
  pp0qnhs0 : Option String
deriving DecidableEq

/-- The `CurrentWeather` dataclass.  The `station` slot receives the raw
`Station/Location` string in the source (or `None` on the coordinator's
fallback path), hence `Option String` here. -/
structure CurrentWeather where
  station : Option String
  date : Option ℤ
  airTemperature : FloatValue
  precipitation : FloatValue
  sunshine : FloatValue
  globalRadiation : FloatValue
  relativeHumidity : FloatValue
  dewPoint : FloatValue
  windDirection : FloatValue
  windSpeed : FloatValue
  gustPeak1s : FloatValue
  pressureStationLevel : FloatValue
  pressureSeaLevel : FloatValue
  pressureSeaLevelAtStandardAtmosphere : FloatValue
deriving DecidableEq

/-- `_get_current_data_for_row`: tag the eleven quantities of one CSV row with
their documented units.  Both pressure slots read the `prestas0` column, as in
the source (lines 165-166 of `meteo.py`). -/
def get_current_data_for_row (r : CsvRow) : CurrentWeather :=
  { station := some r.stationLocation
    date := r.date
    airTemperature := (to_float r.tre200s0, some "°C")
    precipitation := (to_float r.rre150z0, some "mm")
    sunshine := (to_float r.sre000z0, some "min")
    globalRadiation := (to_float r.gre000z0, some "W/m²")
    relativeHumidity := (to_float r.ure200s0, some "%")
    dewPoint := (to_float r.tde200s0, some "°C")
    windDirection := (to_float r.dkl010z0, some "°")
    windSpeed := (to_float r.fu3010z0, some "km/h")
    gustPeak1s := (to_float r.fu3010z1, some "km/h")
    pressureStationLevel := (to_float r.prestas0, some "hPa")
    pressureSeaLevel := (to_float r.prestas0, some "hPa")
    pressureSeaLevelAtStandardAtmosphere := (to_float r.pp0qnhs0, some "hPa") }

/-- Model of `str.casefold()`; on the ASCII station codes of the feed it
coincides with lower-casing. -/
def caseFold (s : String) : String := s.toLower

/-- `_get_current_weather_line_for_station`: `None` station yields `None`;
otherwise the first row whose `Station/Location` matches the requested code
case-insensitively, `none` when no row matches. -/
def get_current_weather_line_for_station (rows : List CsvRow) (station : Option String) :
    Option CsvRow :=
  match station with
  | none => none
  | some s => rows.find? (fun r => caseFold r.stationLocation == caseFold s)

/-- The `currentWeather` JSON fragment: raw icon and temperature (values of
`to_int` / `to_float` applied to the present field, `none` when absent). -/
structure CurrentWeatherJson where
  icon : Option Int
  temperature : Option ℚ
deriving DecidableEq

/-- One element of the provider's daily `forecast` array.  `dayDate` holds the
`strptime`-parsed day instant (`none` when the key is absent); the numeric
fields hold `to_float` of the present value. -/
structure DailyJson where
  dayDate : Option ℤ
  iconDay : Option Int
  temperatureMax : Option ℚ
  temperatureMin : Option ℚ
  precipitation : Option ℚ
deriving DecidableEq

/-- The `graph` JSON section: the two start epochs (milliseconds, `none` when
missing or unparseable by `to_int`), the per-field series arrays, and the
sunrise/sunset epoch arrays. -/
structure GraphJson where
  start? : Option ℤ
  startLowResolution? : Option ℤ
  temperatureMax1h : List ℚ
  temperatureMean1h : List ℚ
  temperatureMin1h : List ℚ
  precipitation1h : List ℚ
  precipitationMax1h : List ℚ
  precipitationMin1h : List ℚ
  gustSpeed1h : List ℚ
  windSpeed1h : List ℚ
  precipitation10m : List ℚ
  precipitationMin10m : List ℚ
  precipitationMax10m : List ℚ
  weatherIcon3h : List Int
  windDirection3h : List ℚ
  sunrise : Option (List Int)
  sunset : Option (List Int)
deriving DecidableEq

/-- The whole forecast feed payload with its optional top-level sections. -/
structure ForecastJson where
  currentWeather? : Option CurrentWeatherJson
  forecast? : Option (List DailyJson)
  graph? : Option GraphJson
deriving DecidableEq

/-- The `CurrentState` dataclass. -/
structure CurrentState where
  currentTemperature : FloatValue
  currentIcon : Option Int
  currentCondition : Option String
deriving DecidableEq

/-- The `Forecast` dataclass with its twelve slots in source order; the six
trailing optional slots default to `None` in the source.  `timestamp` is
optional because `_get_daily_forecast` passes `None` when `dayDate` is
absent. -/
structure Forecast where
  timestamp : Option ℤ
  icon : Option Int
  condition : Option String
  windSpeed : Option FloatValue
  windDirection : Option FloatValue
  windGustSpeed : Option FloatValue
  temperatureMin : Option FloatValue
  temperatureMean : Option FloatValue
  temperatureMax : Option FloatValue
  precipitationMin : Option FloatValue
  precipitation : Option FloatValue
  precipitationMax : Option FloatValue
deriving DecidableEq

/-- The `WeatherForecast` dataclass. -/
structure WeatherForecast where
  current : Option CurrentState
  dailyForecast : List Forecast
  hourlyForecast : Option (List Forecast)
  sunrise : Option (List ℤ)
  sunset : Option (List ℤ)
deriving DecidableEq

/-- `_get_current_state`: absent `currentWeather` section yields `None`;
otherwise tag the temperature and map the icon. -/
def get_current_state (forecastJson : ForecastJson) : Option CurrentState :=
  match forecastJson.currentWeather? with
  | none => none
  | some cw =>
      some { currentTemperature := (cw.temperature, some "°C")
             currentIcon := cw.icon
             currentCondition := condition_of_icon cw.icon }

/-- `_get_daily_forecast`.  The source builds
`Forecast(timestamp, icon, condition, temperatureMax, temperatureMin, precipitation)`
with POSITIONAL arguments, so the three tagged values land in the 4th-6th
slots of the dataclass, which are `windSpeed`, `windDirection` and
`windGustSpeed`; the `temperatureMin`/`temperatureMax`/`precipitation` slots
of the emitted point remain `None`. -/
def get_daily_forecast (forecastJson : ForecastJson) : List Forecast :=
  match forecastJson.forecast? with
  | none => []
  | some days =>
      days.map (fun d =>
        { timestamp := d.dayDate
          icon := d.iconDay
          condition := condition_of_icon d.iconDay
          windSpeed := some (d.temperatureMax, some "°C")
          windDirection := some (d.temperatureMin, some "°C")
          windGustSpeed := some (d.precipitation, some "mm")
          temperatureMin := none
          temperatureMean := none
          temperatureMax := none
          precipitationMin := none
          precipitation := none
          precipitationMax := none })

/-- Effective length of the 10-minute series:
`min(len(precipitation10mList), len(precipitationMin10mList), len(precipitationMax10mList))`. -/
def n10 (g : GraphJson) : ℕ :=
  min g.precipitation10m.length (min g.precipitationMin10m.length g.precipitationMax10m.length)

/-- Effective length of the primary hourly series:
`min(len(temperatureMean1hList), len(temperatureMax1hList), len(temperatureMin1hList))`. -/
def n1h (g : GraphJson) : ℕ :=
  min g.temperatureMean1h.length (min g.temperatureMax1h.length g.temperatureMin1h.length)

/-- Effective length of the low-resolution hourly series. -/
def n1hLow (g : GraphJson) : ℕ :=
  min g.precipitation1h.length (min g.precipitationMax1h.length
    (min g.precipitationMin1h.length (min g.gustSpeed1h.length g.windSpeed1h.length)))

/-- Effective length of the 3-hourly series:
`min(len(windDirection3hlist), len(weatherIcon3hList))`. -/
def n3h (g : GraphJson) : ℕ :=
  min g.windDirection3h.length g.weatherIcon3h.length

/-- `timestamp10mList[k] = startTimestamp + timedelta(minutes=10*k)`. -/
def ts10 (startT : ℤ) (k : ℕ) : ℤ := startT + 600000 * k

/-- `timestamp1hList[k] = startTimestamp + timedelta(hours=k)`. -/
def ts1h (startT : ℤ) (k : ℕ) : ℤ := startT + 3600000 * k

/-- `timestamp1hLowResolutionList[k] = startLowResolutionTimestamp + timedelta(hours=k)`. -/
def ts1hLow (startLow : ℤ) (k : ℕ) : ℤ := startLow + 3600000 * k

/-- `timestamp3hList[k] = startTimestamp + timedelta(hours=3*k)`. -/
def ts3h (startT : ℤ) (k : ℕ) : ℤ := startT + 10800000 * k

/-- `lastTimestamp = max(timestamp10mList[-1], timestamp1hList[-1],
timestamp1hLowResolutionList[-1], timestamp3hList[-1])` (meaningful only when
all four effective lengths are positive; the caller guards that). -/
def lastStamp (g : GraphJson) (startT startLow : ℤ) : ℤ :=
  max (max (max (ts10 startT (n10 g - 1)) (ts1h startT (n1h g - 1)))
    (ts1hLow startLow (n1hLow g - 1))) (ts3h startT (n3h g - 1))

/-- State of the merge loop: the timeline instant `ts`, the four cursors and
the forecast list accumulated so far. -/
structure MergeState where
  ts : ℤ
  i10m : ℕ
  i1h : ℕ
  i1hLow : ℕ
  i3h : ℕ
  acc : List Forecast
deriving DecidableEq

/-- Cursor of the 3-hourly series after one iteration: it advances exactly
when it is in range and its timestamp equals `ts`. -/
def step_i3h (g : GraphJson) (startT : ℤ) (st : MergeState) : ℕ :=
  if st.i3h < n3h g ∧ st.ts = ts3h startT st.i3h then st.i3h + 1 else st.i3h

/-- Cursor of the primary hourly series after one iteration. -/
def step_i1h (g : GraphJson) (startT : ℤ) (st : MergeState) : ℕ :=
  if st.i1h < n1h g ∧ st.ts = ts1h startT st.i1h then st.i1h + 1 else st.i1h

/-- Cursor of the low-resolution hourly series after one iteration. -/
def step_i1hLow (g : GraphJson) (startLow : ℤ) (st : MergeState) : ℕ :=
  if st.i1hLow < n1hLow g ∧ st.ts = ts1hLow startLow st.i1hLow then st.i1hLow + 1 else st.i1hLow

/-- Cursor of the 10-minute series after one iteration. -/
def step_i10m (g : GraphJson) (startT : ℤ) (st : MergeState) : ℕ :=
  if st.i10m < n10 g ∧ st.ts = ts10 startT st.i10m then st.i10m + 1 else st.i10m

/-- `nextTimestamp` before any `min`: `lastTimestamp + timedelta(minutes=10)`. -/
def next1 (lastT : ℤ) : ℤ := lastT + 600000

/-- `nextTimestamp` after the 3-hourly block's
`if i3h < len(timestamp3hList): nextTimestamp = min(nextTimestamp, timestamp3hList[i3h])`. -/
def next2 (g : GraphJson) (startT lastT : ℤ) (st : MergeState) : ℤ :=
  if step_i3h g startT st < n3h g
  then min (next1 lastT) (ts3h startT (step_i3h g startT st))
  else next1 lastT

/-- `nextTimestamp` after the primary-hourly block's `min`. -/
def next3 (g : GraphJson) (startT lastT : ℤ) (st : MergeState) : ℤ :=
  if step_i1h g startT st < n1h g
  then min (next2 g startT lastT st) (ts1h startT (step_i1h g startT st))
  else next2 g startT lastT st

/-- `nextTimestamp` after the low-resolution-hourly block's `min`. -/
def next4 (g : GraphJson) (startT startLow lastT : ℤ) (st : MergeState) : ℤ :=
  if step_i1hLow g startLow st < n1hLow g
  then min (next3 g startT lastT st) (ts1hLow startLow (step_i1hLow g startLow st))
  else next3 g startT lastT st

/-- Final `nextTimestamp` of one iteration, after the 10-minute block's `min`. -/
def nextTs (g : GraphJson) (startT startLow lastT : ℤ) (st : MergeState) : ℤ :=
  if step_i10m g startT st < n10 g
  then min (next4 g startT startLow lastT st) (ts10 startT (step_i10m g startT st))
  else next4 g startT startLow lastT st

/-- The forecast point assembled in one iteration of the loop body: each
series contributes its fields exactly when it is in range and aligned with
`ts`; when both the low-resolution hourly and the 10-minute series fire at the
same instant, the 10-minute precipitation values overwrite the hourly ones
(the source assigns the same three local variables in that order). -/
def mergePoint (g : GraphJson) (startT startLow : ℤ) (st : MergeState) : Forecast :=
  let weatherIcon : Option Int :=
    if st.i3h < n3h g ∧ st.ts = ts3h startT st.i3h
    then some (g.weatherIcon3h.getD st.i3h 0) else none
  let windDirection : Option FloatValue :=
    if st.i3h < n3h g ∧ st.ts = ts3h startT st.i3h
    then some (some (g.windDirection3h.getD st.i3h 0), some "°") else none
  let temperatureMin : Option FloatValue :=
    if st.i1h < n1h g ∧ st.ts = ts1h startT st.i1h
    then some (some (g.temperatureMin1h.getD st.i1h 0), some "°C") else none
  let temperatureMean : Option FloatValue :=
    if st.i1h < n1h g ∧ st.ts = ts1h startT st.i1h
    then some (some (g.temperatureMean1h.getD st.i1h 0), some "°C") else none
  let temperatureMax : Option FloatValue :=
    if st.i1h < n1h g ∧ st.ts = ts1h startT st.i1h
    then some (some (g.temperatureMax1h.getD st.i1h 0), some "°C") else none
  let precipitationMinLow : Option FloatValue :=
    if st.i1hLow < n1hLow g ∧ st.ts = ts1hLow startLow st.i1hLow
    then some (some (g.precipitationMin1h.getD st.i1hLow 0), some "mm") else none
  let precipitationLow : Option FloatValue :=
    if st.i1hLow < n1hLow g ∧ st.ts = ts1hLow startLow st.i1hLow
    then some (some (g.precipitation1h.getD st.i1hLow 0), some "mm") else none
  let precipitationMaxLow : Option FloatValue :=
    if st.i1hLow < n1hLow g ∧ st.ts = ts1hLow startLow st.i1hLow
    then some (some (g.precipitationMax1h.getD st.i1hLow 0), some "mm") else none
  let windGustSpeed : Option FloatValue :=
    if st.i1hLow < n1hLow g ∧ st.ts = ts1hLow startLow st.i1hLow
    then some (some (g.gustSpeed1h.getD st.i1hLow 0), some "km/h") else none
  let windSpeed : Option FloatValue :=
    if st.i1hLow < n1hLow g ∧ st.ts = ts1hLow startLow st.i1hLow
    then some (some (g.windSpeed1h.getD st.i1hLow 0), some "km/h") else none
  let precipitationMin : Option FloatValue :=
    if st.i10m < n10 g ∧ st.ts = ts10 startT st.i10m
    then some (some (g.precipitationMin10m.getD st.i10m 0), some "mm") else precipitationMinLow
  let precipitation : Option FloatValue :=
    if st.i10m < n10 g ∧ st.ts = ts10 startT st.i10m
    then some (some (g.precipitation10m.getD st.i10m 0), some "mm") else precipitationLow
  let precipitationMax : Option FloatValue :=
    if st.i10m < n10 g ∧ st.ts = ts10 startT st.i10m
    then some (some (g.precipitationMax10m.getD st.i10m 0), some "mm") else precipitationMaxLow
  { timestamp := some st.ts
    icon := weatherIcon
    condition := condition_of_icon weatherIcon
    windSpeed := windSpeed
    windDirection := windDirection
    windGustSpeed := windGustSpeed
    temperatureMin := temperatureMin
    temperatureMean := temperatureMean
    temperatureMax := temperatureMax
    precipitationMin := precipitationMin
    precipitation := precipitation
    precipitationMax := precipitationMax }

/-- One full iteration of the merge loop body: advance the cursors, compute
`nextTimestamp`, and append the point unless `ts` is more than one hour in the
past relative to `now` (`ts >= now - timedelta(hours=1)` is the retention
guard of the source). -/
def mergeStep (g : GraphJson) (startT startLow now lastT : ℤ) (st : MergeState) : MergeState :=
  { ts := nextTs g startT startLow lastT st
    i10m := step_i10m g startT st
    i1h := step_i1h g startT st
    i1hLow := step_i1hLow g startLow st
    i3h := step_i3h g startT st
    acc := if now - 3600000 ≤ st.ts then st.acc ++ [mergePoint g startT startLow st] else st.acc }

/-- The `while ts <= lastTimestamp` loop, with explicit fuel.  `none` means
the fuel ran out (never happens for the fuel chosen by the caller, see the
termination theorem). -/
def mergeLoop (g : GraphJson) (startT startLow now lastT : ℤ) :
    ℕ → MergeState → Option (List Forecast)
  | 0, _ => none
  | fuel + 1, st =>
      if st.ts ≤ lastT
      then mergeLoop g startT startLow now lastT fuel (mergeStep g startT startLow now lastT st)
      else some st.acc

/-- Initial loop state: `ts = min(startTimestamp, startLowResolutionTimestamp)`,
all cursors zero, empty output. -/
def initState (startT startLow : ℤ) : MergeState :=
  { ts := min startT startLow, i10m := 0, i1h := 0, i1hLow := 0, i3h := 0, acc := [] }

/-- Fuel that always suffices: one unit per series element plus two. -/
def mergeFuel (g : GraphJson) : ℕ := n10 g + n1h g + n1hLow g + n3h g + 2

/-- `_get_hourly_forecast`.  Returns `Except.error ()` where the source raises
`IndexError`: when any of the four effective series lengths is zero (the
pre-loop logging and the `lastTimestamp` computation subscript `[0]`/`[-1]` on
the empty timestamp list) and when the merged list itself is empty (the final
logging subscripts `forecast[0]`).  Returns `.ok none` when the `graph`
section or either start instant is missing or unparseable. -/
def get_hourly_forecast (graphJson : Option GraphJson) (now : ℤ) :
    Except Unit (Option (List Forecast)) :=
  match graphJson with
  | none => Except.ok none
  | some g =>
      match g.start? with
      | none => Except.ok none
      | some startEpoch =>
          match g.startLowResolution? with
          | none => Except.ok none
          | some lowEpoch =>
              let startT : ℤ := startEpoch
              let startLow : ℤ := lowEpoch
              if n10 g = 0 ∨ n1h g = 0 ∨ n1hLow g = 0 ∨ n3h g = 0 then Except.error ()
              else
                match mergeLoop g startT startLow now (lastStamp g startT startLow)
                    (mergeFuel g) (initState startT startLow) with
                | none => Except.error ()
                | some [] => Except.error ()
                | some l => Except.ok (some l)

/-- Sunrise instants: `forecastJson.get("graph", {}).get("sunrise", None)`
with each epoch converted by `fromtimestamp` (the identity on the millisecond
scale). -/
def sunriseTimes (forecastJson : ForecastJson) : Option (List ℤ) :=
  match forecastJson.graph? with
  | none => none
  | some g => g.sunrise.map (fun es => es.map (fun e => e))

/-- Sunset instants, analogously. -/
def sunsetTimes (forecastJson : ForecastJson) : Option (List ℤ) :=
  match forecastJson.graph? with
  | none => none
  | some g => g.sunset.map (fun es => es.map (fun e => e))

/-- `get_forecast`: `.ok none` when the feed fetch itself failed; otherwise
assemble all sections.  An exception escaping `_get_hourly_forecast`
propagates (`.error`). -/
def get_forecast (forecastJson : Option ForecastJson) (now : ℤ) :
    Except Unit (Option WeatherForecast) :=
  match forecastJson with
  | none => Except.ok none
  | some j =>
      match get_hourly_forecast j.graph? now with
      | Except.error e => Except.error e
      | Except.ok hourly =>
          Except.ok (some
            { current := get_current_state j
              dailyForecast := get_daily_forecast j
              hourlyForecast := hourly
              sunrise := sunriseTimes j
              sunset := sunsetTimes j })

/-- The coordinator's `noValue = (None, None)`. -/
def noValue : FloatValue := (none, none)

/-- `SwissWeatherDataCoordinator._async_update_data`: look the station up
(any failure there degrades to `None`), fetch the forecast (an escaped
exception means `UpdateFailed`, modelled as `none`), and when no station
observation is available derive the current state from the forecast feed's
`currentWeather` fragment with `datetime.now` as its timestamp.  Accessing
`.current` / `.currentTemperature` on `None` raises, hence the `none`
results on those paths. -/
def coordinator_update (stationCode : Option String) (rows : List CsvRow)
    (forecastJson : Option ForecastJson) (now : ℤ) :
    Option (CurrentWeather × Option WeatherForecast) :=
  let currentState? : Option CurrentWeather :=
    (get_current_weather_line_for_station rows stationCode).map get_current_data_for_row
  match get_forecast forecastJson now with
  | Except.error _ => none
  | Except.ok cf? =>
      match currentState? with
      | some cs => some (cs, cf?)
      | none =>
          match cf? with
          | none => none
          | some cf =>
              match cf.current with
              | none => none
              | some cur =>
                  some ({ station := none
                          date := some now
                          airTemperature := cur.currentTemperature
                          precipitation := noValue
                          sunshine := noValue
                          globalRadiation := noValue
                          relativeHumidity := noValue
                          dewPoint := noValue
                          windDirection := noValue
                          windSpeed := noValue
                          gustPeak1s := noValue
                          pressureStationLevel := noValue
                          pressureSeaLevel := noValue
                          pressureSeaLevelAtStandardAtmosphere := noValue }, some cf)

/-- Strict chronological order between two forecast points: both carry a
timestamp and the first is strictly earlier. -/
def tsLt (p q : Forecast) : Prop :=
  ∃ a b, p.timestamp = some a ∧ q.timestamp = some b ∧ a < b

/-- Loop invariant: every series cursor still in range points at an instant
not earlier than the current timeline instant. -/
def CursorsLB (g : GraphJson) (startT startLow : ℤ) (st : MergeState) : Prop :=
  (st.i10m < n10 g → st.ts ≤ ts10 startT st.i10m)
  ∧ (st.i1h < n1h g → st.ts ≤ ts1h startT st.i1h)
  ∧ (st.i1hLow < n1hLow g → st.ts ≤ ts1hLow startLow st.i1hLow)
  ∧ (st.i3h < n3h g → st.ts ≤ ts3h startT st.i3h)

/-- Total number of series elements not yet consumed. -/
def Rem (g : GraphJson) (st : MergeState) : ℕ :=
  (n10 g - st.i10m) + (n1h g - st.i1h) + (n1hLow g - st.i1hLow) + (n3h g - st.i3h)

/-- All four series are exhausted. -/
def Exhausted (g : GraphJson) (st : MergeState) : Prop :=
  n10 g ≤ st.i10m ∧ n1h g ≤ st.i1h ∧ n1hLow g ≤ st.i1hLow ∧ n3h g ≤ st.i3h

/-- Some series is in range and aligned with `ts` (so its cursor will advance
in this iteration). -/
def Fires (g : GraphJson) (startT startLow : ℤ) (st : MergeState) : Prop :=
  (st.i10m < n10 g ∧ st.ts = ts10 startT st.i10m)
  ∨ (st.i1h < n1h g ∧ st.ts = ts1h startT st.i1h)
  ∨ (st.i1hLow < n1hLow g ∧ st.ts = ts1hLow startLow st.i1hLow)
  ∨ (st.i3h < n3h g ∧ st.ts = ts3h startT st.i3h)

/-- All cursors within their series bounds. -/
def InBounds (g : GraphJson) (st : MergeState) : Prop :=
  st.i10m ≤ n10 g ∧ st.i1h ≤ n1h g ∧ st.i1hLow ≤ n1hLow g ∧ st.i3h ≤ n3h g

/-! Concrete inputs used by the closed theorems below. -/

/-- The specification's empty-series scenario: a 10-minute precipitation
series `[1,2,3]` starting at `T = 0`, a 3-hourly series with one icon `5` (and
one wind direction) at `T`, and empty hourly series. -/
def gC2 : GraphJson :=
  { start? := some 0, startLowResolution? := some 0
    temperatureMax1h := [], temperatureMean1h := [], temperatureMin1h := []
    precipitation1h := [], precipitationMax1h := [], precipitationMin1h := []
    gustSpeed1h := [], windSpeed1h := []
    precipitation10m := [1, 2, 3], precipitationMin10m := [1, 2, 3]
    precipitationMax10m := [1, 2, 3]
    weatherIcon3h := [5], windDirection3h := [0]
    sunrise := none, sunset := none }

/-- A forecast payload carrying only the scenario graph of `gC2`. -/
def jC2 : ForecastJson :=
  { currentWeather? := none, forecast? := none, graph? := some gC2 }

/-- A fully populated daily element: day 19900 (a parsed `dayDate`), icon 1,
max 20 °C, min 10 °C, 2 mm precipitation. -/
def dC3 : DailyJson :=
  { dayDate := some 19900, iconDay := some 1, temperatureMax := some 20
    temperatureMin := some 10, precipitation := some 2 }

/-- A forecast payload whose daily array is `[dC3]`. -/
def jC3 : ForecastJson :=
  { currentWeather? := none, forecast? := some [dC3], graph? := none }

/-- The point the daily normalizer actually produces from `dC3`: the tagged
temperatures and precipitation land in the wind slots. -/
def ptC3 : Forecast :=
  { timestamp := some 19900, icon := some 1, condition := some "sunny"
    windSpeed := some (some 20, some "°C")
    windDirection := some (some 10, some "°C")
    windGustSpeed := some (some 2, some "mm")
    temperatureMin := none, temperatureMean := none, temperatureMax := none
    precipitationMin := none, precipitation := none, precipitationMax := none }

/-- A well-formed graph with all four series of length one, both starts at 0. -/
def gW : GraphJson :=
  { start? := some 0, startLowResolution? := some 0
    temperatureMax1h := [12], temperatureMean1h := [11], temperatureMin1h := [10]
    precipitation1h := [1], precipitationMax1h := [2], precipitationMin1h := [0]
    gustSpeed1h := [20], windSpeed1h := [15]
    precipitation10m := [1], precipitationMin10m := [0], precipitationMax10m := [2]
    weatherIcon3h := [1], windDirection3h := [0]
    sunrise := none, sunset := none }

/-- The single forecast point the merger produces from `gW` at `now = 0`. -/
def ptW : Forecast :=
  { timestamp := some 0, icon := some 1, condition := some "sunny"
    windSpeed := some (some 15, some "km/h")
    windDirection := some (some 0, some "°")
    windGustSpeed := some (some 20, some "km/h")
    temperatureMin := some (some 10, some "°C")
    temperatureMean := some (some 11, some "°C")
    temperatureMax := some (some 12, some "°C")
    precipitationMin := some (some 0, some "mm")
    precipitation := some (some 1, some "mm")
    precipitationMax := some (some 2, some "mm") }

/-- A graph whose `start` is missing while everything else is present. -/
def gC5 : GraphJson :=
  { start? := none, startLowResolution? := some 0
    temperatureMax1h := [12], temperatureMean1h := [11], temperatureMin1h := [10]
    precipitation1h := [1], precipitationMax1h := [2], precipitationMin1h := [0]
    gustSpeed1h := [20], windSpeed1h := [15]
    precipitation10m := [1], precipitationMin10m := [0], precipitationMax10m := [2]
    weatherIcon3h := [1], windDirection3h := [0]
    sunrise := some [100], sunset := some [200] }

/-- A payload with current weather, one daily element and the `gC5` graph. -/
def jC5 : ForecastJson :=
  { currentWeather? := some { icon := some 1, temperature := some 7 }
    forecast? := some [dC3], graph? := some gC5 }

/-- A payload with only a `currentWeather` fragment (temperature 5 at icon 2). -/
def jC9 : ForecastJson :=
  { currentWeather? := some { icon := some 2, temperature := some 5 }
    forecast? := none, graph? := none }

/-- A concrete station row. -/
def rowC10 : CsvRow :=
  { stationLocation := "SMA", date := some 0
    tre200s0 := some "21", rre150z0 := some "0", sre000z0 := none
    gre000z0 := none, ure200s0 := some "55", tde200s0 := none
    dkl010z0 := none, fu3010z0 := some "10", fu3010z1 := none
    prestas0 := some "970", pp0qnhs0 := some "1013" }

deriving instance DecidableEq for Except

/-! Generic helpers about the `nextTimestamp` update pattern
`if cursor-in-range then min acc stamp else acc`. -/

theorem ite_min_le_left (p : Prop) [Decidable p] (a b : ℤ) :
    (if p then min a b else a) ≤ a := by
  split
  · exact min_le_left _ _
  · exact le_rfl

theorem ite_min_le_right (p : Prop) [Decidable p] (a b : ℤ) (h : p) :
    (if p then min a b else a) ≤ b := by
  rw [if_pos h]; exact min_le_right _ _

theorem lt_ite_min (p : Prop) [Decidable p] (a b x : ℤ) (ha : x < a) (hb : p → x < b) :
    x < if p then min a b else a := by
  split
  · exact lt_min ha (hb ‹p›)
  · exact ha

theorem ite_min_choice (p : Prop) [Decidable p] (a b : ℤ) :
    (if p then min a b else a) = a ∨ (p ∧ (if p then min a b else a) = b) := by
  split
  · rcases min_choice a b with h | h
    · exact Or.inl h
    · exact Or.inr ⟨‹p›, h⟩
  · exact Or.inl rfl

/-! Per-series facts about the cursor updates. -/

theorem step_i10m_ge (g : GraphJson) (startT : ℤ) (st : MergeState) :
    st.i10m ≤ step_i10m g startT st := by
  unfold step_i10m; split <;> omega

theorem step_i1h_ge (g : GraphJson) (startT : ℤ) (st : MergeState) :
    st.i1h ≤ step_i1h g startT st := by
  unfold step_i1h; split <;> omega

theorem step_i1hLow_ge (g : GraphJson) (startLow : ℤ) (st : MergeState) :
    st.i1hLow ≤ step_i1hLow g startLow st := by
  unfold step_i1hLow; split <;> omega

theorem step_i3h_ge (g : GraphJson) (startT : ℤ) (st : MergeState) :
    st.i3h ≤ step_i3h g startT st := by
  unfold step_i3h; split <;> omega

theorem step_i10m_le (g : GraphJson) (startT : ℤ) (st : MergeState) (h : st.i10m ≤ n10 g) :
    step_i10m g startT st ≤ n10 g := by
  unfold step_i10m; split
  · rename_i hf; omega
  · exact h

theorem step_i1h_le (g : GraphJson) (startT : ℤ) (st : MergeState) (h : st.i1h ≤ n1h g) :
    step_i1h g startT st ≤ n1h g := by
  unfold step_i1h; split
  · rename_i hf; omega
  · exact h

theorem step_i1hLow_le (g : GraphJson) (startLow : ℤ) (st : MergeState) (h : st.i1hLow ≤ n1hLow g) :
    step_i1hLow g startLow st ≤ n1hLow g := by
  unfold step_i1hLow; split
  · rename_i hf; omega
  · exact h

theorem step_i3h_le (g : GraphJson) (startT : ℤ) (st : MergeState) (h : st.i3h ≤ n3h g) :
    step_i3h g startT st ≤ n3h g := by
  unfold step_i3h; split
  · rename_i hf; omega
  · exact h

theorem ts_lt_step10m (g : GraphJson) (startT : ℤ) (st : MergeState)
    (hub : st.i10m < n10 g → st.ts ≤ ts10 startT st.i10m)
    (hlt : step_i10m g startT st < n10 g) :
    st.ts < ts10 startT (step_i10m g startT st) := by
  by_cases h : st.i10m < n10 g ∧ st.ts = ts10 startT st.i10m
  · simp only [step_i10m, if_pos h] at hlt ⊢
    obtain ⟨hi, hts⟩ := h
    simp only [ts10] at hts ⊢
    push_cast
    omega
  · simp only [step_i10m, if_neg h] at hlt ⊢
    exact lt_of_le_of_ne (hub hlt) (fun he => h ⟨hlt, he⟩)

theorem ts_lt_step1h (g : GraphJson) (startT : ℤ) (st : MergeState)
    (hub : st.i1h < n1h g → st.ts ≤ ts1h startT st.i1h)
    (hlt : step_i1h g startT st < n1h g) :
    st.ts < ts1h startT (step_i1h g startT st) := by
  by_cases h : st.i1h < n1h g ∧ st.ts = ts1h startT st.i1h
  · simp only [step_i1h, if_pos h] at hlt ⊢
    obtain ⟨hi, hts⟩ := h
    simp only [ts1h] at hts ⊢
    push_cast
    omega
  · simp only [step_i1h, if_neg h] at hlt ⊢
    exact lt_of_le_of_ne (hub hlt) (fun he => h ⟨hlt, he⟩)

theorem ts_lt_step1hLow (g : GraphJson) (startLow : ℤ) (st : MergeState)
    (hub : st.i1hLow < n1hLow g → st.ts ≤ ts1hLow startLow st.i1hLow)
    (hlt : step_i1hLow g startLow st < n1hLow g) :
    st.ts < ts1hLow startLow (step_i1hLow g startLow st) := by
  by_cases h : st.i1hLow < n1hLow g ∧ st.ts = ts1hLow startLow st.i1hLow
  · simp only [step_i1hLow, if_pos h] at hlt ⊢
    obtain ⟨hi, hts⟩ := h
    simp only [ts1hLow] at hts ⊢
    push_cast
    omega
  · simp only [step_i1hLow, if_neg h] at hlt ⊢
    exact lt_of_le_of_ne (hub hlt) (fun he => h ⟨hlt, he⟩)

theorem ts_lt_step3h (g : GraphJson) (startT : ℤ) (st : MergeState)
    (hub : st.i3h < n3h g → st.ts ≤ ts3h startT st.i3h)
    (hlt : step_i3h g startT st < n3h g) :
    st.ts < ts3h startT (step_i3h g startT st) := by
  by_cases h : st.i3h < n3h g ∧ st.ts = ts3h startT st.i3h
  · simp only [step_i3h, if_pos h] at hlt ⊢
    obtain ⟨hi, hts⟩ := h
    simp only [ts3h] at hts ⊢
    push_cast
    omega
  · simp only [step_i3h, if_neg h] at hlt ⊢
    exact lt_of_le_of_ne (hub hlt) (fun he => h ⟨hlt, he⟩)

/-! Facts about `nextTs`. -/

theorem ts_lt_nextTs (g : GraphJson) (startT startLow lastT : ℤ) (st : MergeState)
    (hCB : CursorsLB g startT startLow st) (hts : st.ts ≤ lastT) :
    st.ts < nextTs g startT startLow lastT st := by
  obtain ⟨h10, h1, hL, h3⟩ := hCB
  unfold nextTs next4 next3 next2 next1
  apply lt_ite_min
  · apply lt_ite_min
    · apply lt_ite_min
      · apply lt_ite_min
        · omega
        · exact fun hc => ts_lt_step3h g startT st h3 hc
      · exact fun hc => ts_lt_step1h g startT st h1 hc
    · exact fun hc => ts_lt_step1hLow g startLow st hL hc
  · exact fun hc => ts_lt_step10m g startT st h10 hc

theorem nextTs_le_ts10 (g : GraphJson) (startT startLow lastT : ℤ) (st : MergeState)
    (hc : step_i10m g startT st < n10 g) :
    nextTs g startT startLow lastT st ≤ ts10 startT (step_i10m g startT st) := by
  unfold nextTs
  exact ite_min_le_right _ _ _ hc

theorem nextTs_le_ts1hLow (g : GraphJson) (startT startLow lastT : ℤ) (st : MergeState)
    (hc : step_i1hLow g startLow st < n1hLow g) :
    nextTs g startT startLow lastT st ≤ ts1hLow startLow (step_i1hLow g startLow st) := by
  unfold nextTs next4
  exact le_trans (ite_min_le_left _ _ _) (ite_min_le_right _ _ _ hc)

theorem nextTs_le_ts1h (g : GraphJson) (startT startLow lastT : ℤ) (st : MergeState)
    (hc : step_i1h g startT st < n1h g) :
    nextTs g startT startLow lastT st ≤ ts1h startT (step_i1h g startT st) := by
  unfold nextTs next4 next3
  exact le_trans (ite_min_le_left _ _ _)
    (le_trans (ite_min_le_left _ _ _) (ite_min_le_right _ _ _ hc))

theorem nextTs_le_ts3h (g : GraphJson) (startT startLow lastT : ℤ) (st : MergeState)
    (hc : step_i3h g startT st < n3h g) :
    nextTs g startT startLow lastT st ≤ ts3h startT (step_i3h g startT st) := by
  unfold nextTs next4 next3 next2
  exact le_trans (ite_min_le_left _ _ _)
    (le_trans (ite_min_le_left _ _ _)
      (le_trans (ite_min_le_left _ _ _) (ite_min_le_right _ _ _ hc)))

theorem nextTs_exhausted (g : GraphJson) (startT startLow lastT : ℤ) (st : MergeState)
    (h10 : n10 g ≤ step_i10m g startT st) (h1 : n1h g ≤ step_i1h g startT st)
    (hL : n1hLow g ≤ step_i1hLow g startLow st) (h3 : n3h g ≤ step_i3h g startT st) :
    nextTs g startT startLow lastT st = lastT + 600000 := by
  unfold nextTs next4 next3 next2 next1
  rw [if_neg (by omega), if_neg (by omega), if_neg (by omega), if_neg (by omega)]

theorem nextTs_attained (g : GraphJson) (startT startLow lastT : ℤ) (st : MergeState) :
    nextTs g startT startLow lastT st = lastT + 600000
    ∨ (step_i10m g startT st < n10 g
        ∧ nextTs g startT startLow lastT st = ts10 startT (step_i10m g startT st))
    ∨ (step_i1h g startT st < n1h g
        ∧ nextTs g startT startLow lastT st = ts1h startT (step_i1h g startT st))
    ∨ (step_i1hLow g startLow st < n1hLow g
        ∧ nextTs g startT startLow lastT st = ts1hLow startLow (step_i1hLow g startLow st))
    ∨ (step_i3h g startT st < n3h g
        ∧ nextTs g startT startLow lastT st = ts3h startT (step_i3h g startT st)) := by
  unfold nextTs
  rcases ite_min_choice (step_i10m g startT st < n10 g) (next4 g startT startLow lastT st)
      (ts10 startT (step_i10m g startT st)) with h5 | ⟨hc, h5⟩
  · rw [h5]
    unfold next4
    rcases ite_min_choice (step_i1hLow g startLow st < n1hLow g) (next3 g startT lastT st)
        (ts1hLow startLow (step_i1hLow g startLow st)) with h4 | ⟨hc, h4⟩
    · rw [h4]
      unfold next3
      rcases ite_min_choice (step_i1h g startT st < n1h g) (next2 g startT lastT st)
          (ts1h startT (step_i1h g startT st)) with h3 | ⟨hc, h3⟩
      · rw [h3]
        unfold next2
        rcases ite_min_choice (step_i3h g startT st < n3h g) (next1 lastT)
            (ts3h startT (step_i3h g startT st)) with h2 | ⟨hc, h2⟩
        · rw [h2]; exact Or.inl rfl
        · exact Or.inr (Or.inr (Or.inr (Or.inr ⟨hc, h2⟩)))
      · exact Or.inr (Or.inr (Or.inl ⟨hc, h3⟩))
    · exact Or.inr (Or.inr (Or.inr (Or.inl ⟨hc, h4⟩)))
  · exact Or.inr (Or.inl ⟨hc, h5⟩)

/-! Facts about one loop iteration. -/

theorem mergeStep_ts (g : GraphJson) (startT startLow now lastT : ℤ) (st : MergeState) :
    (mergeStep g startT startLow now lastT st).ts = nextTs g startT startLow lastT st := rfl

theorem mergeStep_i10m (g : GraphJson) (startT startLow now lastT : ℤ) (st : MergeState) :
    (mergeStep g startT startLow now lastT st).i10m = step_i10m g startT st := rfl

theorem mergeStep_i1h (g : GraphJson) (startT startLow now lastT : ℤ) (st : MergeState) :
    (mergeStep g startT startLow now lastT st).i1h = step_i1h g startT st := rfl

theorem mergeStep_i1hLow (g : GraphJson) (startT startLow now lastT : ℤ) (st : MergeState) :
    (mergeStep g startT startLow now lastT st).i1hLow = step_i1hLow g startLow st := rfl

theorem mergeStep_i3h (g : GraphJson) (startT startLow now lastT : ℤ) (st : MergeState) :
    (mergeStep g startT startLow now lastT st).i3h = step_i3h g startT st := rfl

theorem mergePoint_timestamp (g : GraphJson) (startT startLow : ℤ) (st : MergeState) :
    (mergePoint g startT startLow st).timestamp = some st.ts := rfl

theorem mergeStep_acc_cases (g : GraphJson) (startT startLow now lastT : ℤ) (st : MergeState) :
    (¬ now - 3600000 ≤ st.ts ∧ (mergeStep g startT startLow now lastT st).acc = st.acc)
    ∨ (now - 3600000 ≤ st.ts
        ∧ (mergeStep g startT startLow now lastT st).acc
            = st.acc ++ [mergePoint g startT startLow st]) := by
  unfold mergeStep
  dsimp only
  split
  · exact Or.inr ⟨‹_›, rfl⟩
  · exact Or.inl ⟨‹_›, rfl⟩

theorem mergeStep_acc_mem (g : GraphJson) (startT startLow now lastT : ℤ) (st : MergeState)
    (p : Forecast) (hp : p ∈ st.acc) :
    p ∈ (mergeStep g startT startLow now lastT st).acc := by
  rcases mergeStep_acc_cases g startT startLow now lastT st with ⟨_, h⟩ | ⟨_, h⟩ <;> rw [h]
  · exact hp
  · exact List.mem_append_left _ hp

theorem cursorsLB_step (g : GraphJson) (startT startLow now lastT : ℤ) (st : MergeState) :
    CursorsLB g startT startLow (mergeStep g startT startLow now lastT st) := by
  refine ⟨?_, ?_, ?_, ?_⟩
  · intro hc
    rw [mergeStep_i10m] at hc ⊢
    rw [mergeStep_ts]
    exact nextTs_le_ts10 g startT startLow lastT st hc
  · intro hc
    rw [mergeStep_i1h] at hc ⊢
    rw [mergeStep_ts]
    exact nextTs_le_ts1h g startT startLow lastT st hc
  · intro hc
    rw [mergeStep_i1hLow] at hc ⊢
    rw [mergeStep_ts]
    exact nextTs_le_ts1hLow g startT startLow lastT st hc
  · intro hc
    rw [mergeStep_i3h] at hc ⊢
    rw [mergeStep_ts]
    exact nextTs_le_ts3h g startT startLow lastT st hc

/-! Facts about the whole loop. -/

theorem mergeLoop_acc_mem (g : GraphJson) (startT startLow now lastT : ℤ) :
    ∀ fuel (st : MergeState) (l : List Forecast),
      mergeLoop g startT startLow now lastT fuel st = some l → ∀ p ∈ st.acc, p ∈ l := by
  intro fuel
  induction fuel with
  | zero => intro st l h; simp [mergeLoop] at h
  | succ n ih =>
      intro st l h p hp
      rw [mergeLoop] at h
      split at h
      · exact ih _ _ h p (mergeStep_acc_mem g startT startLow now lastT st p hp)
      · cases h; exact hp

theorem mergeLoop_cutoff_aux (g : GraphJson) (startT startLow now lastT : ℤ) :
    ∀ fuel (st : MergeState) (l : List Forecast),
      (∀ p ∈ st.acc, ∃ a, p.timestamp = some a ∧ now - 3600000 ≤ a) →
      mergeLoop g startT startLow now lastT fuel st = some l →
      ∀ p ∈ l, ∃ a, p.timestamp = some a ∧ now - 3600000 ≤ a := by
  intro fuel
  induction fuel with
  | zero => intro st l _ h; simp [mergeLoop] at h
  | succ n ih =>
      intro st l hacc h
      rw [mergeLoop] at h
      split at h
      · refine ih _ _ ?_ h
        rcases mergeStep_acc_cases g startT startLow now lastT st with ⟨_, he⟩ | ⟨hcut, he⟩ <;>
          rw [he]
        · exact hacc
        · intro p hp
          rcases List.mem_append.mp hp with hp | hp
          · exact hacc p hp
          · rcases List.mem_singleton.mp hp with rfl
            exact ⟨st.ts, mergePoint_timestamp g startT startLow st, hcut⟩
      · cases h; exact hacc

theorem mergeLoop_pairwise_aux (g : GraphJson) (startT startLow now lastT : ℤ) :
    ∀ fuel (st : MergeState) (l : List Forecast),
      CursorsLB g startT startLow st →
      (∀ p ∈ st.acc, ∃ a, p.timestamp = some a ∧ a < st.ts) →
      st.acc.Pairwise tsLt →
      mergeLoop g startT startLow now lastT fuel st = some l →
      l.Pairwise tsLt := by
  intro fuel
  induction fuel with
  | zero => intro st l _ _ _ h; simp [mergeLoop] at h
  | succ n ih =>
      intro st l hCB hub hpw h
      rw [mergeLoop] at h
      split at h
      · rename_i hts
        have hlt : st.ts < nextTs g startT startLow lastT st :=
          ts_lt_nextTs g startT startLow lastT st hCB hts
        refine ih _ _ (cursorsLB_step g startT startLow now lastT st) ?_ ?_ h
        · rcases mergeStep_acc_cases g startT startLow now lastT st with ⟨_, he⟩ | ⟨_, he⟩ <;>
            rw [he, mergeStep_ts]
          · intro p hp
            obtain ⟨a, hpa, ha⟩ := hub p hp
            exact ⟨a, hpa, lt_trans ha hlt⟩
          · intro p hp
            rcases List.mem_append.mp hp with hp | hp
            · obtain ⟨a, hpa, ha⟩ := hub p hp
              exact ⟨a, hpa, lt_trans ha hlt⟩
            · rcases List.mem_singleton.mp hp with rfl
              exact ⟨st.ts, mergePoint_timestamp g startT startLow st, hlt⟩
        · rcases mergeStep_acc_cases g startT startLow now lastT st with ⟨_, he⟩ | ⟨_, he⟩ <;>
            rw [he]
          · exact hpw
          · rw [List.pairwise_append]
            refine ⟨hpw, List.pairwise_singleton _ _, ?_⟩
            intro p hp q hq
            rcases List.mem_singleton.mp hq with rfl
            obtain ⟨a, hpa, ha⟩ := hub p hp
            exact ⟨a, st.ts, hpa, mergePoint_timestamp g startT startLow st, ha⟩
      · cases h; exact hpw

/-! Termination of the loop. -/

theorem ts10_le_lastStamp (g : GraphJson) (startT startLow : ℤ) (i : ℕ) (h : i < n10 g) :
    ts10 startT i ≤ lastStamp g startT startLow := by
  have h1 : ts10 startT i ≤ ts10 startT (n10 g - 1) := by
    unfold ts10
    have : (i : ℤ) ≤ ((n10 g - 1 : ℕ) : ℤ) := by omega
    omega
  refine le_trans h1 ?_
  unfold lastStamp
  exact le_trans (le_trans (le_max_left _ _) (le_max_left _ _)) (le_max_left _ _)

theorem ts1h_le_lastStamp (g : GraphJson) (startT startLow : ℤ) (i : ℕ) (h : i < n1h g) :
    ts1h startT i ≤ lastStamp g startT startLow := by
  have h1 : ts1h startT i ≤ ts1h startT (n1h g - 1) := by
    unfold ts1h
    have : (i : ℤ) ≤ ((n1h g - 1 : ℕ) : ℤ) := by omega
    omega
  refine le_trans h1 ?_
  unfold lastStamp
  exact le_trans (le_trans (le_max_right _ _) (le_max_left _ _)) (le_max_left _ _)

theorem ts1hLow_le_lastStamp (g : GraphJson) (startT startLow : ℤ) (i : ℕ) (h : i < n1hLow g) :
    ts1hLow startLow i ≤ lastStamp g startT startLow := by
  have h1 : ts1hLow startLow i ≤ ts1hLow startLow (n1hLow g - 1) := by
    unfold ts1hLow
    have : (i : ℤ) ≤ ((n1hLow g - 1 : ℕ) : ℤ) := by omega
    omega
  refine le_trans h1 ?_
  unfold lastStamp
  exact le_trans (le_max_right _ _) (le_max_left _ _)

theorem ts3h_le_lastStamp (g : GraphJson) (startT startLow : ℤ) (i : ℕ) (h : i < n3h g) :
    ts3h startT i ≤ lastStamp g startT startLow := by
  have h1 : ts3h startT i ≤ ts3h startT (n3h g - 1) := by
    unfold ts3h
    have : (i : ℤ) ≤ ((n3h g - 1 : ℕ) : ℤ) := by omega
    omega
  exact le_trans h1 (le_max_right _ _)

theorem inBounds_step (g : GraphJson) (startT startLow now lastT : ℤ) (st : MergeState)
    (h : InBounds g st) : InBounds g (mergeStep g startT startLow now lastT st) := by
  obtain ⟨h10, h1, hL, h3⟩ := h
  exact ⟨step_i10m_le g startT st h10, step_i1h_le g startT st h1,
    step_i1hLow_le g startLow st hL, step_i3h_le g startT st h3⟩

theorem Rem_step_lt (g : GraphJson) (startT startLow now lastT : ℤ) (st : MergeState)
    (hf : Fires g startT startLow st) :
    Rem g (mergeStep g startT startLow now lastT st) < Rem g st := by
  have g10 := step_i10m_ge g startT st
  have g1 := step_i1h_ge g startT st
  have gL := step_i1hLow_ge g startLow st
  have g3 := step_i3h_ge g startT st
  unfold Rem
  rw [mergeStep_i10m, mergeStep_i1h, mergeStep_i1hLow, mergeStep_i3h]
  rcases hf with h | h | h | h
  · have he : step_i10m g startT st = st.i10m + 1 := by unfold step_i10m; rw [if_pos h]
    have := h.1
    omega
  · have he : step_i1h g startT st = st.i1h + 1 := by unfold step_i1h; rw [if_pos h]
    have := h.1
    omega
  · have he : step_i1hLow g startLow st = st.i1hLow + 1 := by unfold step_i1hLow; rw [if_pos h]
    have := h.1
    omega
  · have he : step_i3h g startT st = st.i3h + 1 := by unfold step_i3h; rw [if_pos h]
    have := h.1
    omega

theorem fires_or_exhausted_step (g : GraphJson) (startT startLow now : ℤ) (st : MergeState) :
    Fires g startT startLow (mergeStep g startT startLow now (lastStamp g startT startLow) st)
    ∨ Exhausted g (mergeStep g startT startLow now (lastStamp g startT startLow) st) := by
  by_cases c10 : step_i10m g startT st < n10 g
  · rcases nextTs_attained g startT startLow (lastStamp g startT startLow) st with
      h | ⟨hc, h⟩ | ⟨hc, h⟩ | ⟨hc, h⟩ | ⟨hc, h⟩
    · exfalso
      have h1 := nextTs_le_ts10 g startT startLow (lastStamp g startT startLow) st c10
      have h2 := ts10_le_lastStamp g startT startLow (step_i10m g startT st) c10
      omega
    · exact Or.inl (Or.inl ⟨hc, h⟩)
    · exact Or.inl (Or.inr (Or.inl ⟨hc, h⟩))
    · exact Or.inl (Or.inr (Or.inr (Or.inl ⟨hc, h⟩)))
    · exact Or.inl (Or.inr (Or.inr (Or.inr ⟨hc, h⟩)))
  · by_cases c1 : step_i1h g startT st < n1h g
    · rcases nextTs_attained g startT startLow (lastStamp g startT startLow) st with
        h | ⟨hc, h⟩ | ⟨hc, h⟩ | ⟨hc, h⟩ | ⟨hc, h⟩
      · exfalso
        have h1 := nextTs_le_ts1h g startT startLow (lastStamp g startT startLow) st c1
        have h2 := ts1h_le_lastStamp g startT startLow (step_i1h g startT st) c1
        omega
      · exact Or.inl (Or.inl ⟨hc, h⟩)
      · exact Or.inl (Or.inr (Or.inl ⟨hc, h⟩))
      · exact Or.inl (Or.inr (Or.inr (Or.inl ⟨hc, h⟩)))
      · exact Or.inl (Or.inr (Or.inr (Or.inr ⟨hc, h⟩)))
    · by_cases cL : step_i1hLow g startLow st < n1hLow g
      · rcases nextTs_attained g startT startLow (lastStamp g startT startLow) st with
          h | ⟨hc, h⟩ | ⟨hc, h⟩ | ⟨hc, h⟩ | ⟨hc, h⟩
        · exfalso
          have h1 := nextTs_le_ts1hLow g startT startLow (lastStamp g startT startLow) st cL
          have h2 := ts1hLow_le_lastStamp g startT startLow (step_i1hLow g startLow st) cL
          omega
        · exact Or.inl (Or.inl ⟨hc, h⟩)
        · exact Or.inl (Or.inr (Or.inl ⟨hc, h⟩))
        · exact Or.inl (Or.inr (Or.inr (Or.inl ⟨hc, h⟩)))
        · exact Or.inl (Or.inr (Or.inr (Or.inr ⟨hc, h⟩)))
      · by_cases c3 : step_i3h g startT st < n3h g
        · rcases nextTs_attained g startT startLow (lastStamp g startT startLow) st with
            h | ⟨hc, h⟩ | ⟨hc, h⟩ | ⟨hc, h⟩ | ⟨hc, h⟩
          · exfalso
            have h1 := nextTs_le_ts3h g startT startLow (lastStamp g startT startLow) st c3
            have h2 := ts3h_le_lastStamp g startT startLow (step_i3h g startT st) c3
            omega
          · exact Or.inl (Or.inl ⟨hc, h⟩)
          · exact Or.inl (Or.inr (Or.inl ⟨hc, h⟩))
          · exact Or.inl (Or.inr (Or.inr (Or.inl ⟨hc, h⟩)))
          · exact Or.inl (Or.inr (Or.inr (Or.inr ⟨hc, h⟩)))
        · refine Or.inr ⟨?_, ?_, ?_, ?_⟩ <;>
            first
            | exact le_of_not_lt c10
            | exact le_of_not_lt c1
            | exact le_of_not_lt cL
            | exact le_of_not_lt c3

theorem mergeLoop_terminates_aux (g : GraphJson) (startT startLow now : ℤ) :
    ∀ fuel (st : MergeState), InBounds g st →
      (Fires g startT startLow st ∨ Exhausted g st) →
      Rem g st + 2 ≤ fuel →
      mergeLoop g startT startLow now (lastStamp g startT startLow) fuel st ≠ none := by
  intro fuel
  induction fuel with
  | zero => intro st _ _ hr; exact absurd hr (by omega)
  | succ fuel ih =>
      intro st hb hfd hr
      rw [mergeLoop]
      split
      · rename_i hts
        rcases hfd with hf | hex
        · refine ih _ (inBounds_step g startT startLow now _ st hb)
            (fires_or_exhausted_step g startT startLow now st) ?_
          have := Rem_step_lt g startT startLow now (lastStamp g startT startLow) st hf
          omega
        · have hrem : Rem g st = 0 := by
            obtain ⟨e10, e1, eL, e3⟩ := hex
            unfold Rem
            omega
          obtain ⟨f, rfl⟩ : ∃ f, fuel = f + 1 := ⟨fuel - 1, by omega⟩
          rw [mergeLoop]
          split
          · rename_i hts2
            exfalso
            obtain ⟨e10, e1, eL, e3⟩ := hex
            have hnone : nextTs g startT startLow (lastStamp g startT startLow) st
                = lastStamp g startT startLow + 600000 := by
              refine nextTs_exhausted g startT startLow _ st ?_ ?_ ?_ ?_
              · exact le_trans e10 (step_i10m_ge g startT st)
              · exact le_trans e1 (step_i1h_ge g startT st)
              · exact le_trans eL (step_i1hLow_ge g startLow st)
              · exact le_trans e3 (step_i3h_ge g startT st)
            rw [mergeStep_ts, hnone] at hts2
            omega
          · simp
      · simp

/-! Initial-state facts. -/

theorem cursorsLB_init (g : GraphJson) (startT startLow : ℤ) :
    CursorsLB g startT startLow (initState startT startLow) := by
  unfold CursorsLB initState ts10 ts1h ts1hLow ts3h
  refine ⟨?_, ?_, ?_, ?_⟩ <;> intro _ <;> simp

theorem inBounds_init (g : GraphJson) (startT startLow : ℤ) :
    InBounds g (initState startT startLow) := by
  exact ⟨Nat.zero_le _, Nat.zero_le _, Nat.zero_le _, Nat.zero_le _⟩

theorem fires_init (g : GraphJson) (startT startLow : ℤ)
    (h10 : 0 < n10 g) (hL : 0 < n1hLow g) :
    Fires g startT startLow (initState startT startLow) := by
  unfold Fires initState ts10 ts1hLow
  rcases le_total startT startLow with h | h
  · left
    refine ⟨h10, ?_⟩
    simp
    omega
  · right; right; left
    refine ⟨hL, ?_⟩
    simp
    omega

theorem rem_init (g : GraphJson) (startT startLow : ℤ) :
    Rem g (initState startT startLow) = n10 g + n1h g + n1hLow g + n3h g := by
  unfold Rem initState
  dsimp only
  omega

/-- Inversion of a successful `_get_hourly_forecast`: the graph section and
both start instants are present and the loop returned exactly the final
forecast list. -/
theorem get_hourly_eq_some (graphJson : Option GraphJson) (now : ℤ) (l : List Forecast)
    (h : get_hourly_forecast graphJson now = Except.ok (some l)) :
    ∃ g startT startLow, graphJson = some g ∧ g.start? = some startT
      ∧ g.startLowResolution? = some startLow
      ∧ mergeLoop g startT startLow now (lastStamp g startT startLow) (mergeFuel g)
          (initState startT startLow) = some l := by
  unfold get_hourly_forecast at h
  cases graphJson with
  | none => simp at h
  | some g =>
      dsimp only at h
      cases hs : g.start? with
      | none => rw [hs] at h; simp at h
      | some startT =>
          rw [hs] at h
          dsimp only at h
          cases hsl : g.startLowResolution? with
          | none => rw [hsl] at h; simp at h
          | some startLow =>
              rw [hsl] at h
              dsimp only at h
              split at h
              · simp at h
              · refine ⟨g, startT, startLow, rfl, hs, hsl, ?_⟩
                split at h
                · simp at h
                · simp at h
                · rename_i a as heq
                  cases h
                  exact heq

/-! Association-list helpers for the icon table. -/

theorem lookup_eq_none_of_keys {α β : Type} [BEq α] [LawfulBEq α] (l : List (α × β)) (a : α)
    (h : a ∉ l.map Prod.fst) : l.lookup a = none := by
  induction l with
  | nil => rfl
  | cons p t ih =>
      obtain ⟨k, b⟩ := p
      simp only [List.map_cons, List.mem_cons, not_or] at h
      have hbeq : (a == k) = false := by
        simp only [beq_eq_false_iff_ne]
        exact h.1
      simp only [List.lookup, hbeq]
      exact ih h.2

theorem lookup_mem_values {α β : Type} [BEq α] [LawfulBEq α] (l : List (α × β)) (a : α) (c : β)
    (h : l.lookup a = some c) : c ∈ l.map Prod.snd := by
  induction l with
  | nil => simp [List.lookup] at h
  | cons p t ih =>
      obtain ⟨k, b⟩ := p
      simp only [List.lookup] at h
      cases hbeq : a == k
      · rw [hbeq] at h
        exact List.mem_cons_of_mem _ (ih h)
      · rw [hbeq] at h
        simp only [Option.some.injEq] at h
        simp only [List.map_cons, List.mem_cons]
        exact Or.inl h.symm

/-! The claimed properties. -/

/-- C2: evaluation of the code at the specification's empty-series scenario
(10-minute series `[1,2,3]` and a 3-hourly icon at `T = 0`, hourly series
empty).  The merge does NOT succeed: `_get_hourly_forecast` raises
`IndexError` while logging `timestamp1hLowResolutionList[0]` and computing
`lastTimestamp = max(..., timestamp1hList[-1], ...)` on empty lists, and the
escaped exception makes the whole `get_forecast` call (and hence the poll)
fail, instead of yielding the three points at `T`, `T+10m`, `T+20m`. -/
theorem empty_series_merge_raises :
    get_hourly_forecast (some gC2) 0 = Except.error ()
    ∧ get_forecast (some jC2) 0 = Except.error () := by
  constructor
  · decide
  · decide

/-- C3: evaluation of the daily normalizer at a fully populated day element.
Because the source passes `temperatureMax`, `temperatureMin` and
`precipitation` as the 4th-6th POSITIONAL arguments of `Forecast`, they land
in the `windSpeed`, `windDirection` and `windGustSpeed` slots, and the
`temperatureMax`/`temperatureMin`/`precipitation` slots of the emitted point
stay absent — contradicting the claim that those fields carry the parsed
values. -/
theorem daily_forecast_misassigns_fields :
    get_daily_forecast jC3 = [ptC3]
    ∧ ptC3.timestamp = dC3.dayDate
    ∧ ptC3.condition = some "sunny"
    ∧ ptC3.windSpeed = some (some 20, some "°C")
    ∧ ptC3.windDirection = some (some 10, some "°C")
    ∧ ptC3.windGustSpeed = some (some 2, some "mm")
    ∧ ptC3.temperatureMax = none
    ∧ ptC3.temperatureMin = none
    ∧ ptC3.precipitation = none := by
  refine ⟨?_, ?_, ?_, ?_, ?_, ?_, ?_, ?_, ?_⟩ <;> decide

/-- C7 counterexample: icon code 2 is in the fixed table and the mapper
returns the category `"partlycloudy"`, which is NOT an element of the
category set spelled out by the specification (it writes `"partly-cloudy"`),
so the claim as stated fails at code 2. -/
theorem icon_map_spec_spelling_counterexample :
    (2, "partlycloudy") ∈ ICON_TO_CONDITION_MAP
    ∧ icon_condition 2 = some "partlycloudy"
    ∧ "partlycloudy" ∉ claimedConditionCategories := by
  refine ⟨?_, ?_, ?_⟩ <;> decide

/-- C7 (amended): for every icon code of the fixed table the mapper returns
exactly the documented category (with the partly-cloudy category spelled
`"partlycloudy"` as in the code); every produced category is one of the
fifteen table categories; and every code outside the table maps to the
absent condition — the lookup is total and never errors. -/
theorem icon_map_amended :
    (∀ kv ∈ CONDITION_CLASSES, ∀ i ∈ kv.2, icon_condition i = some kv.1)
    ∧ (∀ i : Int, i ∉ ICON_TO_CONDITION_MAP.map Prod.fst → icon_condition i = none)
    ∧ (∀ (i : Int) (c : String), icon_condition i = some c → c ∈ conditionCategories) := by
  refine ⟨by decide, ?_, ?_⟩
  · intro i hi
    exact lookup_eq_none_of_keys ICON_TO_CONDITION_MAP i hi
  · intro i c h
    have hmem : c ∈ ICON_TO_CONDITION_MAP.map Prod.snd :=
      lookup_mem_values ICON_TO_CONDITION_MAP i c h
    have hsub : ∀ x ∈ ICON_TO_CONDITION_MAP.map Prod.snd, x ∈ conditionCategories := by decide
    exact hsub c hmem

/-- Witness for the amended C7 statement at concrete codes. -/
theorem icon_map_amended_witness :
    icon_condition 101 = some "clear-night"
    ∧ icon_condition 999 = none
    ∧ "sunny" ∈ conditionCategories :=
  ⟨icon_map_amended.1 ("clear-night", [101]) (by decide) 101 (by decide),
   icon_map_amended.2.1 999 (by decide),
   icon_map_amended.2.2 1 "sunny" (by decide)⟩

/-- C8: the value tagger is total.  A `None` raw text or a raw text on which
the float parse fails is tagged as the absent value paired with the given
unit; a parseable raw text is tagged as the parsed number paired with the
unit.  No input makes it raise. -/
theorem value_tagger_total :
    (∀ u : Option String, ((to_float none, u) : FloatValue) = (none, u))
    ∧ (∀ (s : String) (u : Option String), floatOfString s = none →
        ((to_float (some s), u) : FloatValue) = (none, u))
    ∧ (∀ (s : String) (v : ℚ) (u : Option String), floatOfString s = some v →
        ((to_float (some s), u) : FloatValue) = (some v, u)) := by
  refine ⟨fun u => rfl, ?_, ?_⟩
  · intro s u h
    simp [to_float, h]
  · intro s v u h
    simp [to_float, h]

/-- Witness for C8 at concrete raw texts. -/
theorem value_tagger_total_witness :
    ((to_float none, some "°C") : FloatValue) = (none, some "°C")
    ∧ ((to_float (some "abc"), some "mm") : FloatValue) = (none, some "mm")
    ∧ ((to_float (some "35"), some "°C") : FloatValue) = (some 35, some "°C") :=
  ⟨value_tagger_total.1 (some "°C"),
   value_tagger_total.2.1 "abc" (some "mm") (by decide),
   value_tagger_total.2.2 "35" 35 (some "°C") (by decide)⟩

/-- C10: for every station row, the station-level pressure and the sea-level
pressure of the normalized observation are the same tagged value, both parsed
from the raw `prestas0` field with unit hPa; the sea-level pressure is never
read from a distinct sea-level column. -/
theorem pressures_both_from_prestas0 (r : CsvRow) :
    (get_current_data_for_row r).pressureStationLevel = (to_float r.prestas0, some "hPa")
    ∧ (get_current_data_for_row r).pressureSeaLevel = (to_float r.prestas0, some "hPa")
    ∧ (get_current_data_for_row r).pressureStationLevel
        = (get_current_data_for_row r).pressureSeaLevel :=
  ⟨rfl, rfl, rfl⟩

/-- Witness for C10 at a concrete row. -/
theorem pressures_both_from_prestas0_witness :
    (get_current_data_for_row rowC10).pressureStationLevel
      = (get_current_data_for_row rowC10).pressureSeaLevel :=
  (pressures_both_from_prestas0 rowC10).2.2

/-- C1: whenever the multi-resolution merger returns a forecast sequence, its
points carry strictly increasing timestamps — no duplicates and no
out-of-order points, for every combination of input series. -/
theorem merger_output_strictly_ascending (graphJson : Option GraphJson) (now : ℤ)
    (l : List Forecast) (h : get_hourly_forecast graphJson now = Except.ok (some l)) :
    l.Pairwise tsLt := by
  obtain ⟨g, startT, startLow, -, -, -, hm⟩ := get_hourly_eq_some graphJson now l h
  refine mergeLoop_pairwise_aux g startT startLow now (lastStamp g startT startLow)
    (mergeFuel g) (initState startT startLow) l (cursorsLB_init g startT startLow) ?_ ?_ hm
  · intro p hp
    simp [initState] at hp
  · exact List.Pairwise.nil

/-- Witness for C1: the merger succeeds on the all-singleton graph `gW` and
the returned sequence is strictly ascending. -/
theorem merger_output_strictly_ascending_witness :
    get_hourly_forecast (some gW) 0 = Except.ok (some [ptW]) ∧ List.Pairwise tsLt [ptW] :=
  ⟨by decide, merger_output_strictly_ascending (some gW) 0 [ptW] (by decide)⟩

/-- C4: (1) every point of a returned merge carries a timestamp at least
`now - 1h`, i.e. points strictly older than the cutoff are never emitted;
(2) an iteration whose instant equals the cutoff exactly emits its point,
i.e. a point exactly at the cutoff is retained. -/
theorem merger_cutoff_policy :
    (∀ (graphJson : Option GraphJson) (now : ℤ) (l : List Forecast),
        get_hourly_forecast graphJson now = Except.ok (some l) →
        ∀ p ∈ l, ∃ a, p.timestamp = some a ∧ now - 3600000 ≤ a)
    ∧ (∀ (g : GraphJson) (startT startLow now lastT : ℤ) (fuel : ℕ) (st : MergeState)
        (l : List Forecast),
        mergeLoop g startT startLow now lastT (fuel + 1) st = some l →
        st.ts = now - 3600000 → st.ts ≤ lastT →
        ∃ p ∈ l, p.timestamp = some (now - 3600000)) := by
  constructor
  · intro graphJson now l h p hp
    obtain ⟨g, startT, startLow, -, -, -, hm⟩ := get_hourly_eq_some graphJson now l h
    refine mergeLoop_cutoff_aux g startT startLow now (lastStamp g startT startLow)
      (mergeFuel g) (initState startT startLow) l ?_ hm p hp
    intro q hq
    simp [initState] at hq
  · intro g startT startLow now lastT fuel st l h hts hle
    rw [mergeLoop, if_pos hle] at h
    have hpt : mergePoint g startT startLow st ∈ (mergeStep g startT startLow now lastT st).acc := by
      rcases mergeStep_acc_cases g startT startLow now lastT st with ⟨hc, _⟩ | ⟨_, he⟩
      · exact absurd (by omega : now - 3600000 ≤ st.ts) hc
      · rw [he]
        exact List.mem_append_right _ (List.mem_singleton_self _)
    refine ⟨mergePoint g startT startLow st,
      mergeLoop_acc_mem g startT startLow now lastT fuel _ l h _ hpt, ?_⟩
    rw [mergePoint_timestamp, hts]

/-- Witness for C4: at `now = 3600000` the initial instant of the `gW` merge
is exactly the cutoff `now - 1h = 0`, and its point is retained. -/
theorem merger_cutoff_policy_witness :
    (∃ a, ptW.timestamp = some a ∧ (0 : ℤ) - 3600000 ≤ a)
    ∧ (∃ p ∈ [ptW], p.timestamp = some ((3600000 : ℤ) - 3600000)) :=
  ⟨merger_cutoff_policy.1 (some gW) 0 [ptW] (by decide) ptW (by decide),
   merger_cutoff_policy.2 gW 0 0 3600000 0 1 (initState 0 0) [ptW]
     (by decide) (by decide) (by decide)⟩

/-- C6: on non-empty well-formed series the merge loop terminates: with fuel
one unit per series element plus two, the loop always reaches `ts >
lastTimestamp` and returns, because every iteration below `lastTimestamp`
advances at least one cursor (or all series are exhausted and the next
iteration exits). -/
theorem merge_loop_terminates (g : GraphJson) (startT startLow now : ℤ)
    (h10 : 0 < n10 g) (_h1 : 0 < n1h g) (hL : 0 < n1hLow g) (_h3 : 0 < n3h g) :
    mergeLoop g startT startLow now (lastStamp g startT startLow) (mergeFuel g)
      (initState startT startLow) ≠ none := by
  refine mergeLoop_terminates_aux g startT startLow now (mergeFuel g) (initState startT startLow)
    (inBounds_init g startT startLow) (Or.inl (fires_init g startT startLow h10 hL)) ?_
  rw [rem_init]
  unfold mergeFuel
  omega

/-- Witness for C6: the loop terminates on the concrete all-singleton graph. -/
theorem merge_loop_terminates_witness :
    mergeLoop gW 0 0 0 (lastStamp gW 0 0) (mergeFuel gW) (initState 0 0) ≠ none :=
  merge_loop_terminates gW 0 0 0 (by decide) (by decide) (by decide) (by decide)

/-- C5: when the `graph` section is present but `start` or
`startLowResolution` is missing (or unparseable, which `to_int` turns into
the same absent value), the assembly still succeeds: `get_forecast` returns a
forecast whose fine-grained sequence is absent while the current state, the
daily sequence and the sunrise/sunset lists are produced as usual — the poll
does not fail. -/
theorem missing_start_omits_hourly_only (j : ForecastJson) (g : GraphJson) (now : ℤ)
    (hg : j.graph? = some g)
    (hs : g.start? = none ∨ g.startLowResolution? = none) :
    get_forecast (some j) now = Except.ok (some
      { current := get_current_state j
        dailyForecast := get_daily_forecast j
        hourlyForecast := none
        sunrise := sunriseTimes j
        sunset := sunsetTimes j }) := by
  have hh : get_hourly_forecast j.graph? now = Except.ok none := by
    rw [hg]
    unfold get_hourly_forecast
    dsimp only
    rcases hs with h | h
    · rw [h]
    · cases hst : g.start? with
      | none => rfl
      | some s =>
          dsimp only
          rw [h]
  unfold get_forecast
  dsimp only
  rw [hh]

/-- Witness for C5 on the concrete payload `jC5` whose graph misses `start`. -/
theorem missing_start_omits_hourly_only_witness :
    get_forecast (some jC5) 0 = Except.ok (some
      { current := get_current_state jC5
        dailyForecast := get_daily_forecast jC5
        hourlyForecast := none
        sunrise := sunriseTimes jC5
        sunset := sunsetTimes jC5 }) :=
  missing_start_omits_hourly_only jC5 gC5 0 (by decide) (Or.inl (by decide))

/-- C9: when the station row lookup finds nothing (station code absent, or no
row matching case-insensitively), and the forecast feed carries a
`currentWeather` fragment, the coordinator still publishes: the current state
it assembles takes its temperature from the fragment (tagged °C), its
timestamp is the assembly instant `now`, all other quantities are the
`(None, None)` value, and the poll succeeds instead of failing. -/
theorem station_fallback_uses_forecast_fragment (stationCode : Option String)
    (rows : List CsvRow) (j : ForecastJson) (cw : CurrentWeatherJson) (now : ℤ)
    (hnotfound : get_current_weather_line_for_station rows stationCode = none)
    (hcw : j.currentWeather? = some cw)
    (hnoraise : get_hourly_forecast j.graph? now ≠ Except.error ()) :
    ∃ wf : WeatherForecast, coordinator_update stationCode rows (some j) now =
      some ({ station := none
              date := some now
              airTemperature := (cw.temperature, some "°C")
              precipitation := noValue
              sunshine := noValue
              globalRadiation := noValue
              relativeHumidity := noValue
              dewPoint := noValue
              windDirection := noValue
              windSpeed := noValue
              gustPeak1s := noValue
              pressureStationLevel := noValue
              pressureSeaLevel := noValue
              pressureSeaLevelAtStandardAtmosphere := noValue }, some wf) := by
  cases hh : get_hourly_forecast j.graph? now with
  | error e => cases e; exact absurd hh hnoraise
  | ok hourly =>
      refine ⟨{ current := get_current_state j
                dailyForecast := get_daily_forecast j
                hourlyForecast := hourly
                sunrise := sunriseTimes j
                sunset := sunsetTimes j }, ?_⟩
      have hgf : get_forecast (some j) now = Except.ok (some
          { current := get_current_state j
            dailyForecast := get_daily_forecast j
            hourlyForecast := hourly
            sunrise := sunriseTimes j
            sunset := sunsetTimes j }) := by
        unfold get_forecast
        dsimp only
        rw [hh]
      have hcs : get_current_state j = some
          { currentTemperature := (cw.temperature, some "°C")
            currentIcon := cw.icon
            currentCondition := condition_of_icon cw.icon } := by
        unfold get_current_state
        rw [hcw]
      unfold coordinator_update
      rw [hgf, hnotfound]
      dsimp only [Option.map_none']
      rw [hcs]

/-- Witness for C9: station code `"sma"` with no feed rows, payload `jC9`
whose fragment carries temperature 5. -/
theorem station_fallback_uses_forecast_fragment_witness :
    ∃ wf : WeatherForecast, coordinator_update (some "sma") [] (some jC9) 0 =
      some ({ station := none
              date := some 0
              airTemperature := (some 5, some "°C")
              precipitation := noValue
              sunshine := noValue
              globalRadiation := noValue
              relativeHumidity := noValue
              dewPoint := noValue
              windDirection := noValue
              windSpeed := noValue
              gustPeak1s := noValue
              pressureStationLevel := noValue
              pressureSeaLevel := noValue
              pressureSeaLevelAtStandardAtmosphere := noValue }, some wf) :=
  station_fallback_uses_forecast_fragment (some "sma") [] jC9
    { icon := some 2, temperature := some 5 } 0 (by decide) (by decide) (by decide)
